import Mathlib

/-!
Shallow embedding of `mosaic_ml/automl.py` (class `AutoML`): object
construction, scoring-function selection, configuration-space loading,
dataset-dependent search-space adaptation and the `fit` driver, together
with theorems checking the specification's claims against this embedding.

Collaborators that `automl.py` calls but whose code is not embedded here
(the mosaic searcher `SearchML.run`, the one-hot encoder and the
`MultinomialNB` probe used by `adapt_search_space`) are modelled as oracle
functions supplied as parameters, so theorems quantify over their
behaviour.  `fit` also returns a trace of the externally visible steps it
performs, in program order, so ordering claims can be stated.
-/

/-- A numpy-style data matrix, abstracted to what `automl.py` inspects:
its shape and whether `scipy.sparse.issparse` holds for it. -/
structure DataMatrix where
  nRows : Nat
  nCols : Nat
  isSparse : Bool
deriving DecidableEq, Repr

/-- A configuration space as returned by `pcs.read`, abstracted to the
definition file it was read from (`automl.py` treats it opaquely). -/
structure ConfigSpace where
  path : String
deriving DecidableEq, Repr

/-- The sklearn metric installed by `AutoML._set_scoring_func`
(lines 74-82): one of the three functions imported at lines 15-16. -/
inductive ScoringFunc where
  | accuracy_score
  | balanced_accuracy_score
  | roc_auc_score
deriving DecidableEq, Repr

/-- Python exceptions that the embedded code paths can raise. -/
inductive PyError where
  | typeError (msg : String)
  | attributeError (msg : String)
  | fileExistsError (path : String)
  | keyError (key : String)
  | exception (msg : String)
deriving DecidableEq, Repr

/-- The policy dictionary built at line 45:
`{"policy_name": "puct", "c": 1.3}`. -/
structure PolicyArg where
  policy_name : String
  c : Rat
deriving DecidableEq, Repr

/-- A fully instantiated pipeline configuration (opaque to `automl.py`,
which only passes it around and returns it). -/
abbrev ModelConfig := String

/-- The searcher's best-result slot `mcts.env.bestconfig`, read at line 189
through its keys `"model"` and `"validation_score"`. -/
structure BestConfig where
  model : ModelConfig
  validation_score : Rat
deriving DecidableEq, Repr

/-- The keyword arguments frozen into `eval_func` by the
`functools`-curried call at lines 163-165. -/
structure EvalFunc where
  X : DataMatrix
  y : List Int
  score_func : ScoringFunc
  categorical_features : List String
  seed : Nat
  test_data : Option (DataMatrix × Option (List Int))
deriving DecidableEq, Repr

/-- The dictionary stored into `env.problem_dependant_value` at
lines 109-113. -/
structure ProblemDependantValue where
  no_encoding : Nat
  one_hot_encoding : Nat
  is_positive : Bool
deriving DecidableEq, Repr

/-- State of the `SklearnEnv` evaluation environment (constructed at
lines 168-172) including the fields `automl.py` writes or reads on
`searcher.mcts.env`: the adaptation fields (lines 100, 109) and the
best-result slot (line 189). -/
structure SklearnEnvState where
  eval_func : EvalFunc
  config_space : ConfigSpace
  mem_in_mb : Nat
  cpu_time_in_s : Nat
  seed : Nat
  problem_dependant_param : List String
  problem_dependant_value : Option ProblemDependantValue
  bestconfig : Option BestConfig
deriving DecidableEq, Repr

/-- State of the `SearchML` searcher as constructed at lines 174-179;
`env` stands for `searcher.mcts.env`, which is the environment handed to
the constructor. -/
structure SearcherState where
  env : SklearnEnvState
  time_budget : Nat
  seed : Nat
  policy_arg : PolicyArg
  exec_dir : String
  verbose : Bool
deriving DecidableEq, Repr

/-- The keyword arguments of `AutoML.__init__` (lines 32-41), with the
source's default values. -/
structure AutoMLArgs where
  time_budget : Nat
  time_limit_for_evaluation : Nat
  memory_limit : Nat
  scoring_func : String
  seed : Nat
  exec_dir : Option String
  verbose : Bool
deriving DecidableEq, Repr

/-- The attributes of a constructed `AutoML` object that the embedded
methods read, plus `npSeed`, the value passed to the global
`np.random.seed` call at line 50. -/
structure AutoMLState where
  time_budget : Nat
  time_limit_for_evaluation : Nat
  memory_limit : Nat
  policy_arg : PolicyArg
  seed : Nat
  verbose : Bool
  npSeed : Nat
  exec_dir : String
  logPath : String
  mosaic_dir : String
  scoring_func : ScoringFunc
  searcher : Option SearcherState
deriving DecidableEq, Repr

/-- Oracles for the collaborators `automl.py` calls whose code is outside
the embedded file: `OneHotEncoding.OneHotEncoder().fit_transform` (line 96;
`none` models the exception swallowed at line 97), `MultinomialNB().fit`
(line 104; `false` models the exception caught at line 106), and
`SearchML.run` (line 184), which mutates `mcts.env` and either returns
normally (`none` error) or raises. -/
structure Oracles where
  onehotWidth : DataMatrix → Option Nat
  mnbFitOk : DataMatrix → List Int → Bool
  run : SearcherState → Nat → List ModelConfig → SklearnEnvState × Option PyError

/-- Externally visible steps of one `fit` call, in program order. -/
inductive FitEvent where
  | logShapes
  | logTestShapes
  | logCategorical (idxs : List Nat)
  | loadConfigSpace (path : String)
  | mkEnvironment (env : SklearnEnvState)
  | mkSearcher (s : SearcherState)
  | adaptSearchSpace
  | runSearch (nbSim : Nat)
deriving DecidableEq, Repr

/-- Lines 74-82, `AutoML._set_scoring_func`: dispatch on the scoring-rule
name; any other name raises `Exception("Score func {0} unknown")`. -/
def AutoML.set_scoring_func (scoring_func : String) : Except PyError ScoringFunc :=
  if scoring_func = "balanced_accuracy" then .ok .balanced_accuracy_score
  else if scoring_func = "accuracy" then .ok .accuracy_score
  else if scoring_func = "roc_auc" then .ok .roc_auc_score
  else .error (.exception ("Score func " ++ scoring_func ++ " unknown"))

/-- Lines 60-72 of `AutoML.__init__`, after the execution directory `ed`
exists: the `automl.log` file handler is created inside it (line 62),
`mosaic_dir` is derived (line 71) and the scoring function installed
(line 72).  `fs` is the filesystem, as the list of existing paths. -/
def AutoML.initCommon (args : AutoMLArgs) (fs : List String) (ed : String) :
    Except PyError (AutoMLState × List String) :=
  match AutoML.set_scoring_func args.scoring_func with
  | .error e => .error e
  | .ok f =>
      .ok (⟨args.time_budget, args.time_limit_for_evaluation, args.memory_limit,
            ⟨"puct", 13/10⟩, args.seed, args.verbose, args.seed,
            ed, ed ++ "/automl.log", ed ++ "/mosaic", f, none⟩,
           fs ++ [ed ++ "/automl.log"])

/-- `AutoML.__init__` (lines 32-72).  `tmpdir` is the fresh directory that
`tempfile.mkdtemp()` returns when `exec_dir` is omitted (line 55); with an
explicit `exec_dir`, `os.makedirs` (line 58) raises `FileExistsError`
whenever that path already exists, since `exist_ok` is not set. -/
def AutoML.init (args : AutoMLArgs) (fs : List String) (tmpdir : String) :
    Except PyError (AutoMLState × List String) :=
  match args.exec_dir with
  | none => AutoML.initCommon args (fs ++ [tmpdir]) tmpdir
  | some ed =>
      if fs.contains ed then .error (.fileExistsError ed)
      else AutoML.initCommon args (fs ++ [ed]) ed

/-- The directory of `automl.py`, i.e. `os.path.dirname(os.path.abspath(__file__))`. -/
def automlDirname : String := "mosaic_ml"

/-- Lines 130-136, `AutoML.get_config_space`: for dense input, read the
space from `model_config/1_0.pcs`; for sparse input the source evaluates
`os.path4.abspath` (line 133) — `os` has no attribute `path4`, so an
`AttributeError` is raised before any file is opened. -/
def AutoML.get_config_space (X : DataMatrix) : Except PyError ConfigSpace :=
  if X.isSparse then
    .error (.attributeError "module os has no attribute path4")
  else
    .ok ⟨automlDirname ++ "/model_config/1_0.pcs"⟩

/-- Line 159: `[i for i, x in enumerate(categorical_features) if x == "categorical"]`. -/
def catIndices (cats : List String) : List Nat :=
  (cats.enum.filter (fun p => p.2 == "categorical")).map (fun p => p.1)

/-- Lines 86-91: the problem-dependent hyperparameter names recorded by
`adapt_search_space` (the `fast_ica` entry is commented out in source). -/
def problem_dependant_parameter : List String :=
  ["preprocessor:feature_agglomeration:n_clusters",
   "preprocessor:kernel_pca:n_components",
   "preprocessor:kitchen_sinks:n_components",
   "preprocessor:nystroem_sampler:n_components"]

/-- Lines 84-114, `AutoML.adapt_search_space`: record on `searcher.mcts.env`
the problem-dependent parameter names, the feature counts without and with
one-hot encoding (falling back to the plain count if the encoder raises),
and whether the data is non-negative (probed by fitting `MultinomialNB`). -/
def AutoML.adapt_search_space (ora : Oracles) (X : DataMatrix) (y : List Int)
    (s : SearcherState) : SearcherState :=
  let widths : Nat × Nat :=
    match ora.onehotWidth X with
    | some w => (X.nCols, w)
    | none => (X.nCols, X.nCols)
  let is_positive := ora.mnbFitOk X y
  { s with env := { s.env with
      problem_dependant_param := problem_dependant_parameter,
      problem_dependant_value := some ⟨widths.1, widths.2, is_positive⟩ } }

/-- Lines 163-165: the curried `evaluate` closure; `test_data` is the
dictionary `{"X_test": X_test, "y_test": y_test}` when `X_test` is present
and empty otherwise. -/
def AutoML.buildEvalFunc (st : AutoMLState) (X : DataMatrix) (y : List Int)
    (cats : List String) (X_test : Option DataMatrix)
    (y_test : Option (List Int)) : EvalFunc :=
  ⟨X, y, st.scoring_func, cats, st.seed, X_test.map (fun xt => (xt, y_test))⟩

/-- Lines 168-172: the `SklearnEnv` constructor call; the adaptation fields
and best-result slot start unset. -/
def AutoML.buildEnv (st : AutoMLState) (ef : EvalFunc) (cs : ConfigSpace) :
    SklearnEnvState :=
  ⟨ef, cs, st.memory_limit, st.time_limit_for_evaluation, st.seed, [], none, none⟩

/-- Lines 174-179: the `SearchML` constructor call.  Note line 177 passes
`self.policy_arg`, the dictionary from line 45. -/
def AutoML.buildSearcher (st : AutoMLState) (env : SklearnEnvState) : SearcherState :=
  ⟨env, st.time_budget, st.seed, st.policy_arg, st.mosaic_dir, st.verbose⟩

/-- Lines 142-189, `AutoML.fit` (the second `def fit`, which shadows the
two-argument one at line 138).  Returns the trace of performed steps and
either the `(bestconfig["model"], bestconfig["validation_score"])` pair
with the final searcher state, or the raised exception.  The
`nb_simulation` and `policy_arg` parameters are accepted but the `run`
call at line 185 passes the literal `100000000000` and the searcher uses
`self.policy_arg` (line 177). -/
def AutoML.fit (st : AutoMLState) (ora : Oracles)
    (X : DataMatrix) (y : List Int)
    (X_test : Option DataMatrix) (y_test : Option (List Int))
    (categorical_features : Option (List String))
    (initial_configurations : List ModelConfig)
    (nb_simulation : Nat) (policy_arg : Option PolicyArg) :
    List FitEvent × Except PyError ((ModelConfig × Rat) × SearcherState) :=
  let t1 : List FitEvent :=
    if X_test.isSome then [.logShapes, .logTestShapes] else [.logShapes]
  match categorical_features with
  | none =>
      (t1, .error (.typeError "NoneType object is not iterable"))
  | some cats =>
      let t2 := t1 ++ [.logCategorical (catIndices cats)]
      match AutoML.get_config_space X with
      | .error e => (t2, .error e)
      | .ok cs =>
          let t3 := t2 ++ [.loadConfigSpace cs.path]
          let env := AutoML.buildEnv st (AutoML.buildEvalFunc st X y cats X_test y_test) cs
          let t4 := t3 ++ [.mkEnvironment env]
          let sr := AutoML.buildSearcher st env
          let t5 := t4 ++ [.mkSearcher sr]
          let sr1 := AutoML.adapt_search_space ora X y sr
          let t6 := t5 ++ [.adaptSearchSpace]
          let t7 := t6 ++ [.runSearch 100000000000]
          match ora.run sr1 100000000000 initial_configurations with
          | (_, some e) => (t7, .error e)
          | (env2, none) =>
              match env2.bestconfig with
              | none => (t7, .error (.keyError "model"))
              | some bc =>
                  (t7, .ok ((bc.model, bc.validation_score), { sr1 with env := env2 }))

/-- The caller-visible outcome of a `fit` call: the returned pair, or the
raised exception. -/
def fitOutcome (r : List FitEvent × Except PyError ((ModelConfig × Rat) × SearcherState)) :
    Except PyError (ModelConfig × Rat) :=
  r.2.map Prod.fst

/-- Recogniser for the adaptation step in a trace. -/
def isAdaptEvent : FitEvent → Bool
  | .adaptSearchSpace => true
  | _ => false

/-- Helper: `set_scoring_func` fails only with the line-82 `Exception`. -/
theorem AutoML.set_scoring_func_error (name : String) (e : PyError)
    (h : AutoML.set_scoring_func name = .error e) :
    e = .exception ("Score func " ++ name ++ " unknown") := by
  unfold AutoML.set_scoring_func at h
  split at h
  · exact absurd h (by simp)
  · split at h
    · exact absurd h (by simp)
    · split at h
      · exact absurd h (by simp)
      · injection h with h; exact h.symm

/-! ## Concrete fixtures used by witnesses and counterexamples -/

/-- A dense 5 x 3 matrix. -/
def Xdense : DataMatrix := ⟨5, 3, false⟩

/-- A sparse 5 x 3 matrix (`issparse` holds). -/
def Xsparse : DataMatrix := ⟨5, 3, true⟩

/-- A concrete label vector. -/
def yEx : List Int := [0, 1, 1, 0, 1]

/-- Concrete per-feature labels. -/
def catsEx : List String := ["numerical", "categorical", "numerical"]

/-- A constructed `AutoML` object with the source's default arguments. -/
def stEx : AutoMLState :=
  ⟨3600, 300, 3024, ⟨"puct", 13/10⟩, 1, false, 1,
   "/tmp/run", "/tmp/run/automl.log", "/tmp/run/mosaic", .roc_auc_score, none⟩

/-- A concrete best-result slot content. -/
def bcEx : BestConfig := ⟨"pipeline-sgd", 9/10⟩

/-- Oracles whose searcher completes normally and stores `bcEx` in the
best-result slot. -/
def oraOk : Oracles :=
  ⟨fun _ => none, fun _ _ => false,
   fun s _ _ => ({ s.env with bestconfig := some bcEx }, none)⟩

/-- Construction arguments with an unknown scoring name. -/
def argsBad : AutoMLArgs := ⟨3600, 300, 3024, "f1", 1, none, false⟩

/-- Construction arguments with an explicit execution directory. -/
def argsEd : AutoMLArgs := ⟨3600, 300, 3024, "roc_auc", 1, some "/tmp/e", false⟩

/-- Construction arguments with `exec_dir` omitted. -/
def argsNone : AutoMLArgs := ⟨3600, 300, 3024, "roc_auc", 1, none, false⟩

/-- The object `AutoML.init argsNone [] "/tmp/t0"` constructs. -/
def stN : AutoMLState :=
  ⟨3600, 300, 3024, ⟨"puct", 13/10⟩, 1, false, 1,
   "/tmp/t0", "/tmp/t0/automl.log", "/tmp/t0/mosaic", .roc_auc_score, none⟩

/-! ## Claims -/

/-- Claim C2 (code bug at line 133): for a sparse input, `get_config_space`
raises an `AttributeError` instead of returning the space read from
`model_config/1_1.pcs`, because the source spells `os.path4` where the
parallel dense branch spells `os.path`; for a dense input it does return
the space read from `model_config/1_0.pcs`. -/
theorem AutoML.get_config_space_sparse_raises :
    AutoML.get_config_space Xsparse
      = .error (.attributeError "module os has no attribute path4") ∧
    AutoML.get_config_space Xdense
      = .ok ⟨"mosaic_ml/model_config/1_0.pcs"⟩ :=
  ⟨rfl, rfl⟩

/-- Claim C3: a scoring name outside the three legal ones raises during
construction — the `Exception` of line 82, the failure the spec taxonomy
names `UnknownScoringFunctionError` — before any search object exists
(`searcher` is only ever set by `fit`); each legal name installs the
corresponding sklearn scoring function, and any successfully constructed
object has a legal name, the matching installed function, and no searcher. -/
theorem AutoML.scoring_func_selection :
    (∀ name, name ≠ "accuracy" → name ≠ "balanced_accuracy" → name ≠ "roc_auc" →
       AutoML.set_scoring_func name
         = .error (.exception ("Score func " ++ name ++ " unknown"))) ∧
    AutoML.set_scoring_func "accuracy" = .ok .accuracy_score ∧
    AutoML.set_scoring_func "balanced_accuracy" = .ok .balanced_accuracy_score ∧
    AutoML.set_scoring_func "roc_auc" = .ok .roc_auc_score ∧
    (∀ args fs tmpdir, args.exec_dir = none →
       args.scoring_func ≠ "accuracy" → args.scoring_func ≠ "balanced_accuracy" →
       args.scoring_func ≠ "roc_auc" →
       AutoML.init args fs tmpdir
         = .error (.exception ("Score func " ++ args.scoring_func ++ " unknown"))) ∧
    (∀ args fs tmpdir out, AutoML.init args fs tmpdir = .ok out →
       out.1.searcher = none ∧
       AutoML.set_scoring_func args.scoring_func = .ok out.1.scoring_func) := by
  refine ⟨?_, rfl, rfl, rfl, ?_, ?_⟩
  · intro name h1 h2 h3
    simp [AutoML.set_scoring_func, h1, h2, h3]
  · intro args fs tmpdir hed h1 h2 h3
    simp [AutoML.init, hed, AutoML.initCommon, AutoML.set_scoring_func, h1, h2, h3]
  · intro args fs tmpdir out hok
    have hcommon : ∀ fs2 ed, AutoML.initCommon args fs2 ed = .ok out →
        out.1.searcher = none ∧
        AutoML.set_scoring_func args.scoring_func = .ok out.1.scoring_func := by
      intro fs2 ed h
      unfold AutoML.initCommon at h
      cases hs : AutoML.set_scoring_func args.scoring_func with
      | error e => rw [hs] at h; exact absurd h (by simp)
      | ok f =>
          rw [hs] at h
          injection h with h
          subst h
          exact ⟨rfl, rfl⟩
    cases hed : args.exec_dir with
    | none =>
        simp only [AutoML.init, hed] at hok
        exact hcommon _ _ hok
    | some ed =>
        simp only [AutoML.init, hed] at hok
        by_cases hc : fs.contains ed
        · rw [if_pos hc] at hok; exact absurd hok (by simp)
        · rw [if_neg hc] at hok; exact hcommon _ _ hok

/-- Witness for C3 at concrete inputs. -/
theorem AutoML.scoring_func_selection_witness :
    AutoML.set_scoring_func "f1"
      = .error (.exception ("Score func " ++ "f1" ++ " unknown")) ∧
    AutoML.init argsBad [] "/tmp/t0"
      = .error (.exception ("Score func " ++ "f1" ++ " unknown")) ∧
    (stN.searcher = none ∧
     AutoML.set_scoring_func "roc_auc" = .ok stN.scoring_func) :=
  ⟨AutoML.scoring_func_selection.1 "f1" (by decide) (by decide) (by decide),
   AutoML.scoring_func_selection.2.2.2.2.1 argsBad [] "/tmp/t0" rfl
     (by decide) (by decide) (by decide),
   AutoML.scoring_func_selection.2.2.2.2.2 argsNone [] "/tmp/t0"
     (stN, ["/tmp/t0", "/tmp/t0/automl.log"]) rfl⟩

/-- Claim C10: with an explicit `exec_dir`, construction fails with
`FileExistsError` exactly when that directory already exists (line 58 uses
`os.makedirs` without `exist_ok`), and on success creates it and places the
run log `automl.log` inside it; with `exec_dir` omitted, the fresh
directory from `tempfile.mkdtemp` is used and a `FileExistsError` is
impossible. -/
theorem AutoML.init_exec_dir_spec :
    (∀ args fs tmpdir ed, args.exec_dir = some ed → fs.contains ed = true →
       AutoML.init args fs tmpdir = .error (.fileExistsError ed)) ∧
    (∀ args fs tmpdir ed out, args.exec_dir = some ed →
       AutoML.init args fs tmpdir = .ok out →
       fs.contains ed = false ∧ out.1.exec_dir = ed ∧ ed ∈ out.2 ∧
       out.1.logPath = ed ++ "/automl.log" ∧ (ed ++ "/automl.log") ∈ out.2) ∧
    (∀ args fs tmpdir, args.exec_dir = none →
       (∀ p, AutoML.init args fs tmpdir ≠ .error (.fileExistsError p)) ∧
       (∀ out, AutoML.init args fs tmpdir = .ok out →
          out.1.exec_dir = tmpdir ∧ tmpdir ∈ out.2 ∧
          out.1.logPath = tmpdir ++ "/automl.log")) := by
  have hcommon : ∀ args fs2 ed out, AutoML.initCommon args fs2 ed = .ok out →
      out.1.exec_dir = ed ∧ out.1.logPath = ed ++ "/automl.log" ∧
      out.2 = fs2 ++ [ed ++ "/automl.log"] := by
    intro args fs2 ed out h
    unfold AutoML.initCommon at h
    cases hs : AutoML.set_scoring_func args.scoring_func with
    | error e => rw [hs] at h; exact absurd h (by simp)
    | ok f =>
        rw [hs] at h
        injection h with h
        subst h
        exact ⟨rfl, rfl, rfl⟩
  refine ⟨?_, ?_, ?_⟩
  · intro args fs tmpdir ed hed hc
    simp only [AutoML.init, hed]
    rw [if_pos hc]
  · intro args fs tmpdir ed out hed hok
    simp only [AutoML.init, hed] at hok
    by_cases hc : fs.contains ed
    · rw [if_pos hc] at hok; exact absurd hok (by simp)
    · rw [if_neg hc] at hok
      obtain ⟨h1, h2, h3⟩ := hcommon _ _ _ _ hok
      refine ⟨by simpa using hc, h1, ?_, h2, ?_⟩
      · rw [h3]; simp
      · rw [h3]; simp
  · intro args fs tmpdir hed
    constructor
    · intro p h
      simp only [AutoML.init, hed] at h
      unfold AutoML.initCommon at h
      cases hs : AutoML.set_scoring_func args.scoring_func with
      | error e =>
          rw [hs] at h
          have he := AutoML.set_scoring_func_error _ _ hs
          subst he
          simp at h
      | ok f => rw [hs] at h; simp at h
    · intro out hok
      simp only [AutoML.init, hed] at hok
      obtain ⟨h1, h2, h3⟩ := hcommon _ _ _ _ hok
      refine ⟨h1, ?_, h2⟩
      rw [h3]; simp

/-- Witness for C10 at concrete inputs. -/
theorem AutoML.init_exec_dir_spec_witness :
    AutoML.init argsEd ["/tmp/e"] "/tmp/t0" = .error (.fileExistsError "/tmp/e") ∧
    AutoML.init argsNone ["/tmp/e"] "/tmp/t0" ≠ .error (.fileExistsError "/tmp/e") ∧
    (stN.exec_dir = "/tmp/t0" ∧ "/tmp/t0" ∈ ["/tmp/t0", "/tmp/t0/automl.log"] ∧
     stN.logPath = "/tmp/t0" ++ "/automl.log") :=
  ⟨AutoML.init_exec_dir_spec.1 argsEd ["/tmp/e"] "/tmp/t0" "/tmp/e" rfl (by decide),
   (AutoML.init_exec_dir_spec.2.2 argsNone ["/tmp/e"] "/tmp/t0" rfl).1 "/tmp/e",
   (AutoML.init_exec_dir_spec.2.2 argsNone [] "/tmp/t0" rfl).2
     (stN, ["/tmp/t0", "/tmp/t0/automl.log"]) rfl⟩

/-- The trace of steps a `fit` call performs, as a function of the inputs
that determine it (the searcher's outcome does not: line 184 is the last
step, and line 189 performs no further externally visible work). -/
def AutoML.fitTrace (st : AutoMLState) (X : DataMatrix) (y : List Int)
    (X_test : Option DataMatrix) (y_test : Option (List Int))
    (categorical_features : Option (List String)) : List FitEvent :=
  let t1 : List FitEvent :=
    if X_test.isSome then [.logShapes, .logTestShapes] else [.logShapes]
  match categorical_features with
  | none => t1
  | some cats =>
      let t2 := t1 ++ [.logCategorical (catIndices cats)]
      match AutoML.get_config_space X with
      | .error _ => t2
      | .ok cs =>
          let env := AutoML.buildEnv st (AutoML.buildEvalFunc st X y cats X_test y_test) cs
          t2 ++ [.loadConfigSpace cs.path] ++ [.mkEnvironment env]
             ++ [.mkSearcher (AutoML.buildSearcher st env)] ++ [.adaptSearchSpace]
             ++ [.runSearch 100000000000]

/-- Helper: the first component of `fit` is `fitTrace`. -/
theorem AutoML.fit_fst (st : AutoMLState) (ora : Oracles) (X : DataMatrix)
    (y : List Int) (X_test : Option DataMatrix) (y_test : Option (List Int))
    (cf : Option (List String)) (ics : List ModelConfig) (n : Nat)
    (pa : Option PolicyArg) :
    (AutoML.fit st ora X y X_test y_test cf ics n pa).1
      = AutoML.fitTrace st X y X_test y_test cf := by
  unfold AutoML.fit AutoML.fitTrace
  cases cf with
  | none => rfl
  | some cats =>
      dsimp only
      cases AutoML.get_config_space X with
      | error e => rfl
      | ok cs =>
          dsimp only
          split
          · rfl
          · split <;> rfl

/-- Claim C9: calling `fit` with `categorical_features` left as its default
`None` raises a `TypeError` at the line-159 list comprehension over
`enumerate(categorical_features)`, before the configuration space is
loaded, before any environment or searcher is constructed and before any
search run starts (the trace holds only the shape-logging steps); with an
iterable of per-feature labels the call proceeds past that point and logs
the categorical indices. -/
theorem AutoML.fit_categorical_features_required :
    ∀ st ora X y X_test y_test ics n pa,
      ((AutoML.fit st ora X y X_test y_test none ics n pa).2
         = .error (.typeError "NoneType object is not iterable") ∧
       ∀ ev ∈ (AutoML.fit st ora X y X_test y_test none ics n pa).1,
         ev = FitEvent.logShapes ∨ ev = FitEvent.logTestShapes) ∧
      (∀ cats, FitEvent.logCategorical (catIndices cats)
         ∈ (AutoML.fit st ora X y X_test y_test (some cats) ics n pa).1) := by
  intro st ora X y X_test y_test ics n pa
  refine ⟨⟨rfl, ?_⟩, ?_⟩
  · intro ev hev
    rw [AutoML.fit_fst] at hev
    unfold AutoML.fitTrace at hev
    cases X_test <;> simp at hev <;> tauto
  · intro cats
    rw [AutoML.fit_fst]
    unfold AutoML.fitTrace
    cases AutoML.get_config_space X with
    | error e => cases X_test <;> simp
    | ok cs => cases X_test <;> simp

/-- Witness for C9 at concrete inputs. -/
theorem AutoML.fit_categorical_features_required_witness :
    ((AutoML.fit stEx oraOk Xdense yEx none none none [] 5 none).2
       = .error (.typeError "NoneType object is not iterable") ∧
     ∀ ev ∈ (AutoML.fit stEx oraOk Xdense yEx none none none [] 5 none).1,
       ev = FitEvent.logShapes ∨ ev = FitEvent.logTestShapes) ∧
    (∀ cats, FitEvent.logCategorical (catIndices cats)
       ∈ (AutoML.fit stEx oraOk Xdense yEx none none (some cats) [] 5 none).1) :=
  AutoML.fit_categorical_features_required stEx oraOk Xdense yEx none none [] 5 none

/-- Claim C5, as stated, is false: the counterexample calls `fit` with
`nb_simulation = 5` and observes that the search is launched with the
hard-coded cap `100000000000` of line 185, and never with the caller's 5. -/
theorem AutoML.fit_nb_simulation_ignored_cex :
    (AutoML.fit stEx oraOk Xdense yEx none none (some catsEx) [] 5 none).1.getLast?
      = some (FitEvent.runSearch 100000000000) ∧
    FitEvent.runSearch 5 ∉ (AutoML.fit stEx oraOk Xdense yEx none none (some catsEx) [] 5 none).1 := by
  refine ⟨rfl, ?_⟩
  decide

/-- Claim C5 amended: `fit` accepts `nb_simulation` but ignores it; the
`run` call at line 185 always passes the literal cap `100000000000`,
whatever `nb_simulation` was supplied. -/
theorem AutoML.fit_run_cap_constant :
    (∀ st ora X y X_test y_test cf ics n pa m,
       FitEvent.runSearch m ∈ (AutoML.fit st ora X y X_test y_test cf ics n pa).1 →
       m = 100000000000) ∧
    (∀ st ora X y X_test y_test cats ics n pa, X.isSparse = false →
       FitEvent.runSearch 100000000000
         ∈ (AutoML.fit st ora X y X_test y_test (some cats) ics n pa).1) := by
  constructor
  · intro st ora X y X_test y_test cf ics n pa m hm
    rw [AutoML.fit_fst] at hm
    unfold AutoML.fitTrace at hm
    cases cf with
    | none => cases X_test <;> simp at hm
    | some cats =>
        cases hcs : AutoML.get_config_space X with
        | error e => rw [hcs] at hm; cases X_test <;> simp at hm
        | ok cs => rw [hcs] at hm; cases X_test <;> simp at hm <;> exact hm
  · intro st ora X y X_test y_test cats ics n pa hd
    rw [AutoML.fit_fst]
    unfold AutoML.fitTrace
    rw [show AutoML.get_config_space X = .ok ⟨automlDirname ++ "/model_config/1_0.pcs"⟩ by
          simp [AutoML.get_config_space, hd]]
    cases X_test <;> simp

/-- Witness for C5's amended theorem at concrete inputs. -/
theorem AutoML.fit_run_cap_constant_witness :
    FitEvent.runSearch 100000000000
      ∈ (AutoML.fit stEx oraOk Xdense yEx none none (some catsEx) [] 7 none).1 ∧
    (100000000000 : Nat) = 100000000000 :=
  ⟨AutoML.fit_run_cap_constant.2 stEx oraOk Xdense yEx none none catsEx [] 7 none rfl,
   AutoML.fit_run_cap_constant.1 stEx oraOk Xdense yEx none none (some catsEx) [] 7 none
     100000000000
     (AutoML.fit_run_cap_constant.2 stEx oraOk Xdense yEx none none catsEx [] 7 none rfl)⟩

/-- The environment state an aborting searcher leaves behind in the C6
scenario: adaptation fields recorded and a best result already stored. -/
def envAbort : SklearnEnvState :=
  ⟨AutoML.buildEvalFunc stEx Xdense yEx catsEx none none,
   ⟨automlDirname ++ "/model_config/1_0.pcs"⟩, 3024, 300, 1,
   problem_dependant_parameter, some ⟨3, 3, false⟩, some bcEx⟩

/-- Oracles whose searcher raises `SearchAbortedError` after having stored
a best result in `mcts.env.bestconfig`. -/
def oraAbort : Oracles :=
  ⟨fun _ => none, fun _ _ => false,
   fun _ _ _ => (envAbort, some (.exception "SearchAbortedError"))⟩

/-- Claim C6, as stated, is false: the counterexample runs `fit` with a
searcher that aborts after a best result exists in its slot, and `fit`
propagates the exception to the caller (the `except` clause at lines
186-187 only re-raises) instead of returning that best result. -/
theorem AutoML.fit_propagates_abort_cex :
    envAbort.bestconfig = some bcEx ∧
    (AutoML.fit stEx oraAbort Xdense yEx none none (some catsEx) [] 5 none).2
      = .error (.exception "SearchAbortedError") :=
  ⟨rfl, rfl⟩

/-- Claim C6 amended: when the searcher's run raises, `fit` re-raises that
exact exception to its caller; the best-result pair is returned only when
the run returns normally. -/
theorem AutoML.fit_reraises_run_error :
    ∀ st ora X y X_test y_test cats ics n pa e, X.isSparse = false →
      (∀ s nn ics2, (ora.run s nn ics2).2 = some e) →
      (AutoML.fit st ora X y X_test y_test (some cats) ics n pa).2 = .error e := by
  intro st ora X y X_test y_test cats ics n pa e hd hrun
  unfold AutoML.fit
  dsimp only
  rw [show AutoML.get_config_space X = .ok ⟨automlDirname ++ "/model_config/1_0.pcs"⟩ by
        simp [AutoML.get_config_space, hd]]
  dsimp only
  split
  · rename_i fst e2 heq
    have h2 := hrun (AutoML.adapt_search_space ora X y
      (AutoML.buildSearcher st
        (AutoML.buildEnv st (AutoML.buildEvalFunc st X y cats X_test y_test)
          ⟨automlDirname ++ "/model_config/1_0.pcs"⟩))) 100000000000 ics
    rw [heq] at h2
    injection h2 with h2
    rw [h2]
  · rename_i env2 heq
    have h2 := hrun (AutoML.adapt_search_space ora X y
      (AutoML.buildSearcher st
        (AutoML.buildEnv st (AutoML.buildEvalFunc st X y cats X_test y_test)
          ⟨automlDirname ++ "/model_config/1_0.pcs"⟩))) 100000000000 ics
    rw [heq] at h2
    exact absurd h2 (by simp)

/-- Witness for C6's amended theorem at concrete inputs. -/
theorem AutoML.fit_reraises_run_error_witness :
    (AutoML.fit stEx oraAbort Xdense yEx none none (some catsEx) [] 7 none).2
      = .error (.exception "SearchAbortedError") :=
  AutoML.fit_reraises_run_error stEx oraAbort Xdense yEx none none catsEx [] 7 none
    (.exception "SearchAbortedError") rfl (fun _ _ _ => rfl)

/-- Claim C1: whenever `fit` returns normally, the returned pair is exactly
the content of the searcher's best-result slot `mcts.env.bestconfig`, read
through its `"model"` and `"validation_score"` keys (line 189). -/
theorem AutoML.fit_returns_best_slot :
    ∀ st ora X y X_test y_test cf ics n pa r s2,
      (AutoML.fit st ora X y X_test y_test cf ics n pa).2 = .ok (r, s2) →
      ∃ bc, s2.env.bestconfig = some bc ∧ r = (bc.model, bc.validation_score) := by
  intro st ora X y X_test y_test cf ics n pa r s2 h
  unfold AutoML.fit at h
  cases cf with
  | none => exact absurd h (by simp)
  | some cats =>
      dsimp only at h
      cases hcs : AutoML.get_config_space X with
      | error e => rw [hcs] at h; exact absurd h (by simp)
      | ok cs =>
          rw [hcs] at h
          dsimp only at h
          split at h
          · exact absurd h (by simp)
          · rename_i env2 heq
            split at h
            · exact absurd h (by simp)
            · rename_i bc hbc
              simp only [Except.ok.injEq, Prod.mk.injEq] at h
              obtain ⟨hr, hs2⟩ := h
              refine ⟨bc, ?_, hr.symm⟩
              rw [← hs2]
              exact hbc

/-- The environment `fit` builds in the concrete dense scenario. -/
def envEx : SklearnEnvState :=
  AutoML.buildEnv stEx (AutoML.buildEvalFunc stEx Xdense yEx catsEx none none)
    ⟨automlDirname ++ "/model_config/1_0.pcs"⟩

/-- The searcher of the concrete dense scenario, after adaptation. -/
def srAdaptedEx : SearcherState :=
  AutoML.adapt_search_space oraOk Xdense yEx (AutoML.buildSearcher stEx envEx)

/-- The searcher of the concrete dense scenario after `oraOk`'s run. -/
def srDoneEx : SearcherState :=
  { srAdaptedEx with env := { srAdaptedEx.env with bestconfig := some bcEx } }

/-- Witness for C1 at concrete inputs. -/
theorem AutoML.fit_returns_best_slot_witness :
    ∃ bc, srDoneEx.env.bestconfig = some bc ∧
      (("pipeline-sgd" : ModelConfig), (9 : Rat)/10) = (bc.model, bc.validation_score) :=
  AutoML.fit_returns_best_slot stEx oraOk Xdense yEx none none (some catsEx) [] 5 none
    ("pipeline-sgd", 9/10) srDoneEx (by rfl)

/-- Helper: the attribute values of any successfully constructed object. -/
theorem AutoML.init_ok_fields (args : AutoMLArgs) (fs : List String) (tmpdir : String)
    (out : AutoMLState × List String) (h : AutoML.init args fs tmpdir = .ok out) :
    out.1.time_budget = args.time_budget ∧
    out.1.time_limit_for_evaluation = args.time_limit_for_evaluation ∧
    out.1.memory_limit = args.memory_limit ∧
    out.1.seed = args.seed ∧ out.1.npSeed = args.seed ∧
    out.1.policy_arg = ⟨"puct", 13/10⟩ ∧ out.1.searcher = none := by
  have hcommon : ∀ fs2 ed, AutoML.initCommon args fs2 ed = .ok out →
      out.1.time_budget = args.time_budget ∧
      out.1.time_limit_for_evaluation = args.time_limit_for_evaluation ∧
      out.1.memory_limit = args.memory_limit ∧
      out.1.seed = args.seed ∧ out.1.npSeed = args.seed ∧
      out.1.policy_arg = ⟨"puct", 13/10⟩ ∧ out.1.searcher = none := by
    intro fs2 ed hh
    unfold AutoML.initCommon at hh
    cases hs : AutoML.set_scoring_func args.scoring_func with
    | error e => rw [hs] at hh; exact absurd hh (by simp)
    | ok f =>
        rw [hs] at hh
        injection hh with hh
        subst hh
        exact ⟨rfl, rfl, rfl, rfl, rfl, rfl, rfl⟩
  cases hed : args.exec_dir with
  | none => simp only [AutoML.init, hed] at h; exact hcommon _ _ h
  | some ed =>
      simp only [AutoML.init, hed] at h
      by_cases hc : fs.contains ed
      · rw [if_pos hc] at h; exact absurd h (by simp)
      · rw [if_neg hc] at h; exact hcommon _ _ h

/-- Claim C4: every evaluation environment `fit` constructs carries exactly
the per-evaluation limits stored at construction: `mem_in_mb` is the
object's `memory_limit` and `cpu_time_in_s` its `time_limit_for_evaluation`
(lines 168-172), and those attributes are in turn exactly the
`memory_limit` and `time_limit_for_evaluation` arguments of
`AutoML.__init__` (lines 42-44). -/
theorem AutoML.fit_env_limits :
    (∀ st ora X y X_test y_test cf ics n pa e,
       FitEvent.mkEnvironment e ∈ (AutoML.fit st ora X y X_test y_test cf ics n pa).1 →
       e.mem_in_mb = st.memory_limit ∧
       e.cpu_time_in_s = st.time_limit_for_evaluation) ∧
    (∀ args fs tmpdir out, AutoML.init args fs tmpdir = .ok out →
       out.1.memory_limit = args.memory_limit ∧
       out.1.time_limit_for_evaluation = args.time_limit_for_evaluation) := by
  constructor
  · intro st ora X y X_test y_test cf ics n pa e hm
    rw [AutoML.fit_fst] at hm
    unfold AutoML.fitTrace at hm
    cases cf with
    | none => cases X_test <;> simp at hm
    | some cats =>
        cases hcs : AutoML.get_config_space X with
        | error e2 => rw [hcs] at hm; cases X_test <;> simp at hm
        | ok cs =>
            rw [hcs] at hm
            cases X_test <;> simp at hm <;> subst hm <;> exact ⟨rfl, rfl⟩
  · intro args fs tmpdir out h
    obtain ⟨-, h2, h3, -⟩ := AutoML.init_ok_fields args fs tmpdir out h
    exact ⟨h3, h2⟩

/-- Witness for C4 at concrete inputs. -/
theorem AutoML.fit_env_limits_witness :
    (envEx.mem_in_mb = stEx.memory_limit ∧
     envEx.cpu_time_in_s = stEx.time_limit_for_evaluation) ∧
    (stN.memory_limit = argsNone.memory_limit ∧
     stN.time_limit_for_evaluation = argsNone.time_limit_for_evaluation) :=
  ⟨AutoML.fit_env_limits.1 stEx oraOk Xdense yEx none none (some catsEx) [] 5 none envEx
     (by decide),
   AutoML.fit_env_limits.2 argsNone [] "/tmp/t0" (stN, ["/tmp/t0", "/tmp/t0/automl.log"]) rfl⟩

/-- Claim C7: in any `fit` call that reaches the search (dense data, with
categorical labels supplied), the dataset-dependent adaptation of the
search space happens exactly once, strictly after the searcher is
constructed and strictly before the run starts: the trace ends with
`[adaptSearchSpace, runSearch]`, the searcher construction lies in the
prefix before them, and the adaptation step occurs once in the whole
trace. -/
theorem AutoML.adapt_once_between_searcher_and_run :
    ∀ st ora X y X_test y_test cats ics n pa, X.isSparse = false →
      ∃ pfx s, (AutoML.fit st ora X y X_test y_test (some cats) ics n pa).1
          = pfx ++ [FitEvent.adaptSearchSpace, FitEvent.runSearch 100000000000] ∧
        FitEvent.mkSearcher s ∈ pfx ∧
        (AutoML.fit st ora X y X_test y_test (some cats) ics n pa).1.countP isAdaptEvent
          = 1 := by
  intro st ora X y X_test y_test cats ics n pa hd
  rw [AutoML.fit_fst]
  unfold AutoML.fitTrace
  rw [show AutoML.get_config_space X = .ok ⟨automlDirname ++ "/model_config/1_0.pcs"⟩ by
        simp [AutoML.get_config_space, hd]]
  dsimp only
  refine ⟨(if X_test.isSome then [FitEvent.logShapes, FitEvent.logTestShapes]
             else [FitEvent.logShapes])
      ++ [FitEvent.logCategorical (catIndices cats),
          FitEvent.loadConfigSpace (automlDirname ++ "/model_config/1_0.pcs"),
          FitEvent.mkEnvironment (AutoML.buildEnv st
            (AutoML.buildEvalFunc st X y cats X_test y_test)
            ⟨automlDirname ++ "/model_config/1_0.pcs"⟩),
          FitEvent.mkSearcher (AutoML.buildSearcher st (AutoML.buildEnv st
            (AutoML.buildEvalFunc st X y cats X_test y_test)
            ⟨automlDirname ++ "/model_config/1_0.pcs"⟩))],
      AutoML.buildSearcher st (AutoML.buildEnv st
        (AutoML.buildEvalFunc st X y cats X_test y_test)
        ⟨automlDirname ++ "/model_config/1_0.pcs"⟩), ?_, ?_, ?_⟩
  · cases X_test <;> simp
  · cases X_test <;> simp
  · cases X_test <;> simp [isAdaptEvent]

/-- Witness for C7 at concrete inputs. -/
theorem AutoML.adapt_once_between_searcher_and_run_witness :
    ∃ pfx s, (AutoML.fit stEx oraOk Xdense yEx none none (some catsEx) [] 5 none).1
        = pfx ++ [FitEvent.adaptSearchSpace, FitEvent.runSearch 100000000000] ∧
      FitEvent.mkSearcher s ∈ pfx ∧
      (AutoML.fit stEx oraOk Xdense yEx none none (some catsEx) [] 5 none).1.countP
        isAdaptEvent = 1 :=
  AutoML.adapt_once_between_searcher_and_run stEx oraOk Xdense yEx none none catsEx [] 5
    none rfl

/-- A second constructed object: same constructor arguments as `stEx`, but
a different temporary execution directory, as a second construction at a
later time would hold. -/
def stEx2 : AutoMLState :=
  ⟨3600, 300, 3024, ⟨"puct", 13/10⟩, 1, false, 1,
   "/tmp/run2", "/tmp/run2/automl.log", "/tmp/run2/mosaic", .roc_auc_score, none⟩

/-- Claim C8: reproducibility plumbing.  (i) Two `fit` calls on objects
that agree on the constructor-supplied fields (seed, scoring function,
per-evaluation limits, time budget, policy) — though possibly holding
different execution directories, as two separate constructions would —
give the same caller-visible outcome on identical inputs, for any searcher
whose behaviour depends only on its environment, budget, seed and policy
(the spec's determinism assumption for `SearchML`, whose code is outside
`automl.py`).  (ii) Construction seeds the global numpy rng with the
`seed` argument (line 50) and stores the same seed on the object; `fit`
passes that seed unchanged to the evaluation environment (line 172) and to
the searcher (line 176). -/
theorem AutoML.fit_seed_reproducibility :
    (∀ st1 st2 ora X y X_test y_test cf ics n pa,
       st1.seed = st2.seed → st1.scoring_func = st2.scoring_func →
       st1.memory_limit = st2.memory_limit →
       st1.time_limit_for_evaluation = st2.time_limit_for_evaluation →
       st1.time_budget = st2.time_budget → st1.policy_arg = st2.policy_arg →
       (∀ s1 s2 nn ics2, s1.env = s2.env → s1.time_budget = s2.time_budget →
          s1.seed = s2.seed → s1.policy_arg = s2.policy_arg →
          ora.run s1 nn ics2 = ora.run s2 nn ics2) →
       fitOutcome (AutoML.fit st1 ora X y X_test y_test cf ics n pa)
         = fitOutcome (AutoML.fit st2 ora X y X_test y_test cf ics n pa)) ∧
    (∀ args fs tmpdir out, AutoML.init args fs tmpdir = .ok out →
       out.1.npSeed = args.seed ∧ out.1.seed = args.seed) ∧
    (∀ st ora X y X_test y_test cf ics n pa e,
       FitEvent.mkEnvironment e ∈ (AutoML.fit st ora X y X_test y_test cf ics n pa).1 →
       e.seed = st.seed) ∧
    (∀ st ora X y X_test y_test cf ics n pa s,
       FitEvent.mkSearcher s ∈ (AutoML.fit st ora X y X_test y_test cf ics n pa).1 →
       s.seed = st.seed) := by
  refine ⟨?_, ?_, ?_, ?_⟩
  · intro st1 st2 ora X y X_test y_test cf ics n pa hseed hsc hmem htl hbud hpol hrun
    cases cf with
    | none => rfl
    | some cats =>
        unfold AutoML.fit
        dsimp only
        cases hcs : AutoML.get_config_space X with
        | error e => rfl
        | ok cs =>
            dsimp only
            have henv : AutoML.buildEnv st1 (AutoML.buildEvalFunc st1 X y cats X_test y_test) cs
                = AutoML.buildEnv st2 (AutoML.buildEvalFunc st2 X y cats X_test y_test) cs := by
              simp [AutoML.buildEnv, AutoML.buildEvalFunc, hseed, hsc, hmem, htl]
            rw [henv]
            have hr := hrun
              (AutoML.adapt_search_space ora X y (AutoML.buildSearcher st1
                (AutoML.buildEnv st2 (AutoML.buildEvalFunc st2 X y cats X_test y_test) cs)))
              (AutoML.adapt_search_space ora X y (AutoML.buildSearcher st2
                (AutoML.buildEnv st2 (AutoML.buildEvalFunc st2 X y cats X_test y_test) cs)))
              100000000000 ics rfl hbud hseed hpol
            rw [hr]
            rcases ora.run (AutoML.adapt_search_space ora X y (AutoML.buildSearcher st2
                (AutoML.buildEnv st2 (AutoML.buildEvalFunc st2 X y cats X_test y_test) cs)))
              100000000000 ics with ⟨env2, oe⟩
            cases oe with
            | some e => rfl
            | none =>
                dsimp only
                cases env2.bestconfig <;> rfl
  · intro args fs tmpdir out h
    obtain ⟨-, -, -, h4, h5, -⟩ := AutoML.init_ok_fields args fs tmpdir out h
    exact ⟨h5, h4⟩
  · intro st ora X y X_test y_test cf ics n pa e hm
    rw [AutoML.fit_fst] at hm
    unfold AutoML.fitTrace at hm
    cases cf with
    | none => cases X_test <;> simp at hm
    | some cats =>
        cases hcs : AutoML.get_config_space X with
        | error e2 => rw [hcs] at hm; cases X_test <;> simp at hm
        | ok cs => rw [hcs] at hm; cases X_test <;> simp at hm <;> subst hm <;> rfl
  · intro st ora X y X_test y_test cf ics n pa s hm
    rw [AutoML.fit_fst] at hm
    unfold AutoML.fitTrace at hm
    cases cf with
    | none => cases X_test <;> simp at hm
    | some cats =>
        cases hcs : AutoML.get_config_space X with
        | error e2 => rw [hcs] at hm; cases X_test <;> simp at hm
        | ok cs => rw [hcs] at hm; cases X_test <;> simp at hm <;> subst hm <;> rfl

/-- Witness for C8 at concrete inputs. -/
theorem AutoML.fit_seed_reproducibility_witness :
    fitOutcome (AutoML.fit stEx oraOk Xdense yEx none none (some catsEx) [] 5 none)
      = fitOutcome (AutoML.fit stEx2 oraOk Xdense yEx none none (some catsEx) [] 5 none) ∧
    (stN.npSeed = argsNone.seed ∧ stN.seed = argsNone.seed) :=
  ⟨AutoML.fit_seed_reproducibility.1 stEx stEx2 oraOk Xdense yEx none none (some catsEx)
     [] 5 none rfl rfl rfl rfl rfl rfl
     (fun s1 s2 nn ics2 henv _ _ _ => by simp only [oraOk]; rw [henv]),
   AutoML.fit_seed_reproducibility.2.1 argsNone [] "/tmp/t0"
     (stN, ["/tmp/t0", "/tmp/t0/automl.log"]) rfl⟩
